import Mathlib

/-!
Shallow embedding of the `auth2fa` TOTP two-factor authentication library
(files `auth2fa/recovery.py`, `auth2fa/storage/json_storage.py`,
`auth2fa/core.py`) together with proofs about the claims of the specification.

The TOTP engine (`pyotp.TOTP.verify`), the provisioning-URI builder, the
QR encoder, the CSPRNG (`secrets.choice`, `pyotp.random_base32`) and the
wall clock are external collaborators: they appear as explicit function
parameters, so every theorem quantifies over their behaviour.
-/

namespace Auth2FA

/-- The persisted per-user enrollment record
(`{secret, enabled, recovery_codes, created_at}`), as saved by
`TwoFactorAuth.setup` in `core.py`. -/
structure Record where
  secret : String
  enabled : Bool
  recovery_codes : List String
  created_at : String
deriving Repr, DecidableEq

/-! ## `auth2fa/recovery.py` -/

/-- `string.ascii_uppercase`. -/
def asciiUppercase : String := "ABCDEFGHIJKLMNOPQRSTUVWXYZ"

/-- `string.digits`. -/
def asciiDigits : String := "0123456789"

/-- Python `s.replace(c, \x27\x27)` behaviour: delete every occurrence of character `c`. -/
def removeChar (s : String) (c : Char) : String :=
  String.mk (s.data.filter (fun x => x ≠ c))

/-- The recovery-code alphabet built in `generate_recovery_codes`:
uppercase letters and digits with `'0'`, `'O'`, `'I'`, `'1'` removed. -/
def recoveryAlphabet : String :=
  removeChar (removeChar (removeChar (removeChar
    (asciiUppercase ++ asciiDigits) '0') 'O') 'I') '1'

/-- One call of `secrets.choice(alphabet)`: the CSPRNG is modelled by the
stream `pick` of naturals; each draw indexes into the alphabet. -/
def choiceAlphabet (pick : Nat → Nat) (n : Nat) : Char :=
  recoveryAlphabet.data.getD (pick n % recoveryAlphabet.data.length) 'A'

/-- `generate_recovery_codes(count=8, length=8)` from `recovery.py`:
`count` codes of `length` characters each, drawn from `recoveryAlphabet`.
Character `j` of code `i` consumes draw `i*length + j`. -/
def generate_recovery_codes (pick : Nat → Nat)
    (count : Nat := 8) (length : Nat := 8) : List String :=
  (List.range count).map (fun i =>
    String.mk ((List.range length).map (fun j =>
      choiceAlphabet pick (i * length + j))))

/-- Python `s.upper()`: uppercase each character of the string. -/
def strUpper (s : String) : String := String.mk (s.data.map Char.toUpper)

/-- `verify_recovery_code(stored_codes, input_code)` from `recovery.py`:
case-insensitive membership test; on a match, every stored code whose
uppercase form equals the uppercased input is filtered out. -/
def verify_recovery_code (stored_codes : List String) (input_code : String) :
    Bool × List String :=
  let input_upper := strUpper input_code
  let codes_upper := stored_codes.map strUpper
  if input_upper ∈ codes_upper then
    (true, stored_codes.filter (fun rc => strUpper rc ≠ input_upper))
  else
    (false, stored_codes)

/-! ## `auth2fa/storage/json_storage.py`

The JSON document maps user ids to records; we model it as an association
list with unique keys maintained by the `dict` operations below. The file
on disk is either a parseable document or unreadable (unparseable JSON or
a vanished file) — `_read_data` swallows `json.JSONDecodeError` and
`FileNotFoundError` and returns `{}` in the latter case. -/

/-- The document type: a Python `dict` of user id → record. -/
abbrev Doc := List (String × Record)

/-- `d.get(k)`: lookup of key `k` in the document. -/
def dictGet : Doc → String → Option Record
  | [], _ => none
  | p :: d, k => if p.1 = k then some p.2 else dictGet d k

/-- `k in d`: key membership. -/
def dictHas : Doc → String → Bool
  | [], _ => false
  | p :: d, k => p.1 = k || dictHas d k

/-- `d[k] = v`: overwrite the entry in place when the key exists,
append a new entry otherwise. -/
def dictSet : Doc → String → Record → Doc
  | [], k, v => [(k, v)]
  | p :: d, k, v => if p.1 = k then (k, v) :: d else p :: dictSet d k v

/-- `del d[k]`: remove the entry for key `k`. -/
def dictDel (d : Doc) (k : String) : Doc :=
  d.filter (fun p => p.1 ≠ k)

/-- State of the storage file: a parseable JSON document, or an
unreadable/corrupt file (JSON that does not parse, or a missing file). -/
inductive FileState where
  | ok (doc : Doc)
  | corrupt
deriving Repr, DecidableEq

/-- `JSONStorage._read_data`: parse the file; on `json.JSONDecodeError`
or `FileNotFoundError` silently return the empty document `{}`. -/
def readData : FileState → Doc
  | .ok d => d
  | .corrupt => []

/-- `JSONStorage._write_data`: serialise the document to the file. -/
def writeData (d : Doc) : FileState := .ok d

/-- `JSONStorage.save`: read-modify-write upsert of the record of one user. -/
def storageSave (fs : FileState) (user_id : String) (data : Record) : FileState :=
  writeData (dictSet (readData fs) user_id data)

/-- `JSONStorage.get`: read the document and look the user up;
returns `none` ("not found") when the key is absent. -/
def storageGet (fs : FileState) (user_id : String) : Option Record :=
  dictGet (readData fs) user_id

/-- `JSONStorage.delete`: remove the entry of the user and write back, but only
when the key is present — otherwise the file is left untouched. -/
def storageDelete (fs : FileState) (user_id : String) : FileState :=
  let all_data := readData fs
  if dictHas all_data user_id then
    writeData (dictDel all_data user_id)
  else
    fs

/-- `JSONStorage.exists`: read the document and test key membership. -/
def storageExists (fs : FileState) (user_id : String) : Bool :=
  dictHas (readData fs) user_id

/-! ## `auth2fa/core.py` — the `TwoFactorAuth` orchestrator

`pyotp.TOTP(secret).verify(code, valid_window=w)` is abstracted as a
function `totp : String → String → Nat → Bool` of the secret, the
candidate code and the window (the current time is folded into the
function); `provisioning_uri` and the QR renderer are likewise abstract.
The first statement of each public method `user_id = str(user_id)` is the
`pyStr` coercion applied by the `...Py` entry points further below. -/

/-- Abstract TOTP engine: secret → candidate code → valid_window → bool. -/
abbrev TotpVerify := String → String → Nat → Bool

/-- The dictionary returned by `TwoFactorAuth.setup`. -/
structure SetupResult where
  secret : String
  qr_uri : String
  qr_image : String
  recovery_codes : List String
deriving Repr, DecidableEq

/-- `TwoFactorAuth.setup(user_id, username="")`: fail when a record
exists; otherwise generate a secret and 8 recovery codes, build the
provisioning URI and QR image, persist a disabled record, and return
the payload. `mkUri secret account_name issuer` models
`pyotp.TOTP(secret).provisioning_uri(name, issuer_name)`; `qrImage`
models the QR/base64 pipeline; `secret` models `pyotp.random_base32()`;
`now` models `datetime.now().isoformat()`. A raised `ValueError` is the
`.error` outcome, paired with the untouched storage. -/
def setup (mkUri : String → String → String → String)
    (qrImage : String → String) (issuer : String) (secret : String)
    (pick : Nat → Nat) (now : String) (fs : FileState)
    (user_id : String) (username : String := "") :
    Except String SetupResult × FileState :=
  if storageExists fs user_id then
    (.error ("TOTP already configured for user: " ++ user_id), fs)
  else
    let recovery_codes := generate_recovery_codes pick 8 8
    let account_name := if username = "" then user_id else username
    let qr_uri := mkUri secret account_name issuer
    let qr_image := qrImage qr_uri
    let data : Record := ⟨secret, false, recovery_codes, now⟩
    (.ok ⟨secret, qr_uri, qr_image, recovery_codes⟩,
      storageSave fs user_id data)

/-- `TwoFactorAuth.activate(user_id, code)`: record absent → raise
"not configured"; `enabled` → raise "already activated"; code verifies
with `valid_window=1` → set `enabled=true`, save, return `true`;
otherwise return `false` with no write. -/
def activate (totp : TotpVerify) (fs : FileState)
    (user_id code : String) : Except String Bool × FileState :=
  match storageGet fs user_id with
  | none => (.error ("TOTP not configured for user: " ++ user_id), fs)
  | some data =>
    if data.enabled then
      (.error ("TOTP already activated for user: " ++ user_id), fs)
    else if totp data.secret code 1 then
      (.ok true, storageSave fs user_id { data with enabled := true })
    else
      (.ok false, fs)

/-- `TwoFactorAuth.verify(user_id, code)`: record absent → `true`
(pass-through); TOTP match with `valid_window=1` → `true`; else try the
recovery codes, persisting the removal of the consumed code on a match;
otherwise `false`. -/
def verify (totp : TotpVerify) (fs : FileState)
    (user_id code : String) : Bool × FileState :=
  match storageGet fs user_id with
  | none => (true, fs)
  | some data =>
    if totp data.secret code 1 then
      (true, fs)
    else
      let vr := verify_recovery_code data.recovery_codes code
      if vr.1 then
        (true, storageSave fs user_id { data with recovery_codes := vr.2 })
      else
        (false, fs)

/-- `TwoFactorAuth.disable(user_id)`: unconditionally delete the record. -/
def disable (fs : FileState) (user_id : String) : FileState :=
  storageDelete fs user_id

/-- `TwoFactorAuth.is_enabled(user_id)`: absent → `false`,
else the `enabled` flag of the record. -/
def is_enabled (fs : FileState) (user_id : String) : Bool :=
  match storageGet fs user_id with
  | none => false
  | some data => data.enabled

/-- `TwoFactorAuth.regenerate_recovery_codes(user_id)`: record absent →
raise "not configured"; otherwise replace the recovery codes with a
fresh batch of 8, persist, and return them. -/
def regenerate_recovery_codes (pick : Nat → Nat) (fs : FileState)
    (user_id : String) : Except String (List String) × FileState :=
  match storageGet fs user_id with
  | none => (.error ("TOTP not configured for user: " ++ user_id), fs)
  | some data =>
    let new_codes := generate_recovery_codes pick 8 8
    (.ok new_codes,
      storageSave fs user_id { data with recovery_codes := new_codes })

/-! ### `user_id = str(user_id)` coercion

Every public method of `TwoFactorAuth` (and of `JSONStorage`) starts with
`user_id = str(user_id)`. We model a caller-supplied Python value and
the Python `str()` coercion on it, and expose the public entry points as taking such
a value. -/

/-- A Python value a caller might pass as `user_id`. -/
inductive PyValue where
  | str (s : String)
  | int (n : Int)
  | bool (b : Bool)
deriving Repr, DecidableEq

/-- Python `str()` on a `PyValue`. -/
def pyStr : PyValue → String
  | .str s => s
  | .int n => toString n
  | .bool b => if b then "True" else "False"

/-- Public `setup` as called: coerces `user_id` with `str()` first. -/
def setupPy (mkUri : String → String → String → String)
    (qrImage : String → String) (issuer : String) (secret : String)
    (pick : Nat → Nat) (now : String) (fs : FileState)
    (user_id : PyValue) (username : String := "") :
    Except String SetupResult × FileState :=
  setup mkUri qrImage issuer secret pick now fs (pyStr user_id) username

/-- Public `activate` as called: coerces `user_id` with `str()` first. -/
def activatePy (totp : TotpVerify) (fs : FileState)
    (user_id : PyValue) (code : String) : Except String Bool × FileState :=
  activate totp fs (pyStr user_id) code

/-- Public `verify` as called: coerces `user_id` with `str()` first. -/
def verifyPy (totp : TotpVerify) (fs : FileState)
    (user_id : PyValue) (code : String) : Bool × FileState :=
  verify totp fs (pyStr user_id) code

/-- Public `disable` as called: coerces `user_id` with `str()` first. -/
def disablePy (fs : FileState) (user_id : PyValue) : FileState :=
  disable fs (pyStr user_id)

/-- Public `is_enabled` as called: coerces `user_id` with `str()` first. -/
def isEnabledPy (fs : FileState) (user_id : PyValue) : Bool :=
  is_enabled fs (pyStr user_id)

/-- Public `regenerate_recovery_codes` as called: coerces `user_id`
with `str()` first. -/
def regeneratePy (pick : Nat → Nat) (fs : FileState)
    (user_id : PyValue) : Except String (List String) × FileState :=
  regenerate_recovery_codes pick fs (pyStr user_id)

/-! ## Concrete fixtures, used to evaluate the theorems on closed inputs -/

/-- A TOTP engine for which no candidate code ever verifies
(e.g. the candidate is no currently valid code for any secret). -/
def totpNever : TotpVerify := fun _ _ _ => false

/-- A TOTP engine for which the candidate code always verifies
(e.g. the candidate is the current code for the secret). -/
def totpAlways : TotpVerify := fun _ _ _ => true

/-- An activated record for user `u1` with two recovery codes. -/
def exActive : Record :=
  ⟨"JBSWY3DPEHPK3PXP", true, ["AAAA2222", "BBBB3333"], "2026-01-01T00:00:00"⟩

/-- A pending (not yet activated) record for user `u2`. -/
def exPending : Record :=
  ⟨"KRSXG5CTMVRXEZLU", false, ["CCCC4444"], "2026-02-02T00:00:00"⟩

/-- A storage state holding `u1` (active) and `u2` (pending). -/
def exFS : FileState := .ok [("u1", exActive), ("u2", exPending)]

/-! ## Helper lemmas about the document operations -/

theorem dictGet_dictSet_self (d : Doc) (k : String) (v : Record) :
    dictGet (dictSet d k v) k = some v := by
  induction d with
  | nil => simp [dictSet, dictGet]
  | cons p d ih =>
    by_cases h : p.1 = k <;> simp [dictSet, dictGet, h, ih]

theorem dictGet_eq_none_of_not_has (d : Doc) (k : String)
    (h : dictHas d k = false) : dictGet d k = none := by
  induction d with
  | nil => simp [dictGet]
  | cons p d ih =>
    simp only [dictHas, Bool.or_eq_false_iff, decide_eq_false_iff_not] at h
    simp [dictGet, h.1, ih h.2]

theorem dictHas_dictDel_self (d : Doc) (k : String) :
    dictHas (dictDel d k) k = false := by
  induction d with
  | nil => simp [dictDel, dictHas]
  | cons p d ih =>
    by_cases h : p.1 = k <;>
      simp [dictDel, List.filter_cons, h, dictHas, ih] <;>
      simpa [dictDel] using ih

theorem dictGet_dictDel_self (d : Doc) (k : String) :
    dictGet (dictDel d k) k = none :=
  dictGet_eq_none_of_not_has _ _ (dictHas_dictDel_self d k)

theorem storageGet_storageSave_self (fs : FileState) (uid : String)
    (v : Record) : storageGet (storageSave fs uid v) uid = some v := by
  simp [storageGet, storageSave, writeData, readData, dictGet_dictSet_self]

theorem storageDelete_of_has (fs : FileState) (uid : String)
    (h : dictHas (readData fs) uid = true) :
    storageDelete fs uid = .ok (dictDel (readData fs) uid) := by
  simp [storageDelete, h, writeData]

theorem storageDelete_of_not_has (fs : FileState) (uid : String)
    (h : dictHas (readData fs) uid = false) :
    storageDelete fs uid = fs := by
  simp [storageDelete, h]

theorem storageGet_storageDelete_self (fs : FileState) (uid : String) :
    storageGet (storageDelete fs uid) uid = none := by
  cases h : dictHas (readData fs) uid with
  | true =>
    rw [storageDelete_of_has fs uid h]
    simp [storageGet, readData, dictGet_dictDel_self]
  | false =>
    rw [storageDelete_of_not_has fs uid h]
    exact dictGet_eq_none_of_not_has _ _ h

theorem getD_mem_of_lt {α : Type} (l : List α) (i : Nat) (d : α)
    (h : i < l.length) : l.getD i d ∈ l := by
  induction l generalizing i with
  | nil => simp at h
  | cons a l ih =>
    cases i with
    | zero => simp [List.getD]
    | succ i =>
      simp only [List.getD_cons_succ]
      exact List.mem_cons_of_mem _ (ih i (by simpa using h))

theorem choiceAlphabet_mem (pick : Nat → Nat) (n : Nat) :
    choiceAlphabet pick n ∈ recoveryAlphabet.data := by
  unfold choiceAlphabet
  exact getD_mem_of_lt _ _ _ (Nat.mod_lt _ (by decide))

theorem generate_recovery_codes_length (pick : Nat → Nat)
    (count length : Nat) :
    (generate_recovery_codes pick count length).length = count := by
  simp [generate_recovery_codes]

theorem generate_recovery_codes_code_length (pick : Nat → Nat)
    (count length : Nat) (c : String)
    (hc : c ∈ generate_recovery_codes pick count length) :
    c.length = length := by
  simp only [generate_recovery_codes, List.mem_map, List.mem_range] at hc
  obtain ⟨i, hi, rfl⟩ := hc
  simp [String.length]

theorem generate_recovery_codes_chars (pick : Nat → Nat)
    (count length : Nat) (c : String)
    (hc : c ∈ generate_recovery_codes pick count length)
    (ch : Char) (hch : ch ∈ c.data) : ch ∈ recoveryAlphabet.data := by
  simp only [generate_recovery_codes, List.mem_map, List.mem_range] at hc
  obtain ⟨i, hi, rfl⟩ := hc
  simp only [String.mk, List.mem_map, List.mem_range] at hch
  obtain ⟨j, hj, rfl⟩ := hch
  exact choiceAlphabet_mem pick _

theorem verify_recovery_code_of_mem (stored : List String) (input : String)
    (h : strUpper input ∈ stored.map strUpper) :
    verify_recovery_code stored input =
      (true, stored.filter (fun rc => strUpper rc ≠ strUpper input)) := by
  simp [verify_recovery_code, h]

theorem verify_recovery_code_of_not_mem (stored : List String)
    (input : String) (h : strUpper input ∉ stored.map strUpper) :
    verify_recovery_code stored input = (false, stored) := by
  simp [verify_recovery_code, h]

theorem strUpper_not_mem_filter (codes : List String) (u : String) :
    u ∉ (codes.filter (fun rc => strUpper rc ≠ u)).map strUpper := by
  intro hmem
  simp only [List.mem_map, List.mem_filter, decide_eq_true_eq] at hmem
  obtain ⟨rc, ⟨_, hne⟩, heq⟩ := hmem
  exact hne heq

theorem verify_false_of_miss (totp : TotpVerify) (fs : FileState)
    (uid code : String) (data : Record)
    (hget : storageGet fs uid = some data)
    (ht : totp data.secret code 1 = false)
    (hm : strUpper code ∉ data.recovery_codes.map strUpper) :
    verify totp fs uid code = (false, fs) := by
  simp [verify, hget, ht, verify_recovery_code_of_not_mem _ _ hm]

theorem storageDelete_idem (fs : FileState) (uid : String) :
    storageDelete (storageDelete fs uid) uid = storageDelete fs uid := by
  cases h : dictHas (readData fs) uid with
  | true =>
    rw [storageDelete_of_has fs uid h]
    exact storageDelete_of_not_has _ _ (by simp [readData, dictHas_dictDel_self])
  | false =>
    rw [storageDelete_of_not_has fs uid h]
    exact storageDelete_of_not_has fs uid h

/-! ## The claims -/

/-- C1, counterexample: on a corrupt (unparseable) storage document the
code surfaces no error at all — `get` returns "not found" and `exists`
returns `false` (the corruption is silently treated as "no record"), and
`verify` passes through returning success for user `alice` even though
she may have been enrolled before the corruption. This contradicts the
claim that every read of corrupt storage surfaces a `StorageFailure`. -/
theorem C1_counterexample :
    storageGet FileState.corrupt "alice" = none ∧
    storageExists FileState.corrupt "alice" = false ∧
    verify totpNever FileState.corrupt "alice" "WRONGCODE" =
      (true, FileState.corrupt) :=
  ⟨rfl, rfl, rfl⟩

/-- C1, amended: when the persisted storage document is unreadable or
corrupt, `_read_data` silently substitutes the empty document, so `get`
reports "not found", `exists` reports `false`, and `verify` passes
through as success for every user id and candidate code — no
`StorageFailure` (or any other error) is surfaced. -/
theorem C1_corrupt_storage_silently_empty (totp : TotpVerify)
    (uid code : String) :
    storageGet FileState.corrupt uid = none ∧
    storageExists FileState.corrupt uid = false ∧
    verify totp FileState.corrupt uid code = (true, FileState.corrupt) := by
  refine ⟨rfl, rfl, ?_⟩
  simp [verify, storageGet, readData, dictGet]

/-- C3: for every user id whose record is absent from storage and every
candidate code, `verify` returns success and leaves storage untouched. -/
theorem C3_verify_passthrough (totp : TotpVerify) (fs : FileState)
    (uid code : String) (h : storageGet fs uid = none) :
    verify totp fs uid code = (true, fs) := by
  simp [verify, h]

/-- C3 witness: pass-through evaluated on an empty store. -/
theorem C3_witness :
    verify totpNever (FileState.ok []) "ghost" "anything" =
      (true, FileState.ok []) :=
  C3_verify_passthrough totpNever (FileState.ok []) "ghost" "anything" rfl

/-- C7: `disable` is idempotent from every starting state: it never
errors (it is a total function of the state), the record is absent
afterwards (`get` is "not found" and `is_enabled` is `false`), and a
second `disable` returns the very same state. -/
theorem C7_disable_idempotent (fs : FileState) (uid : String) :
    storageGet (disable fs uid) uid = none ∧
    is_enabled (disable fs uid) uid = false ∧
    disable (disable fs uid) uid = disable fs uid := by
  refine ⟨storageGet_storageDelete_self fs uid, ?_,
    storageDelete_idem fs uid⟩
  simp [is_enabled, disable, storageGet_storageDelete_self]

/-- C9: every public orchestrator operation first coerces `user_id` with
`str()`, so each operation applied to a value `v` behaves identically to
the operation applied to the string `str(v)`; in particular `str(123)`
is the string `123`. -/
theorem C9_user_id_str_coercion (mkUri : String → String → String → String)
    (qrImage : String → String) (issuer secret : String) (pick : Nat → Nat)
    (now : String) (totp : TotpVerify) (fs : FileState) (v : PyValue)
    (code username : String) :
    setupPy mkUri qrImage issuer secret pick now fs v username =
      setupPy mkUri qrImage issuer secret pick now fs
        (.str (pyStr v)) username ∧
    activatePy totp fs v code = activatePy totp fs (.str (pyStr v)) code ∧
    verifyPy totp fs v code = verifyPy totp fs (.str (pyStr v)) code ∧
    disablePy fs v = disablePy fs (.str (pyStr v)) ∧
    isEnabledPy fs v = isEnabledPy fs (.str (pyStr v)) ∧
    regeneratePy pick fs v = regeneratePy pick fs (.str (pyStr v)) ∧
    pyStr (.int 123) = "123" :=
  ⟨rfl, rfl, rfl, rfl, rfl, rfl, rfl⟩

/-- C2: recovery codes are single-use. For every stored record and every
recovery code `c` in its `recovery_codes`, when `c` is not a currently
valid TOTP code, `verify` succeeds, persists the record with `c` (and
every case-variant copy) removed from the stored set, and a second
`verify` with the same `c` against the resulting state fails. -/
theorem C2_recovery_code_single_use (totp : TotpVerify) (fs : FileState)
    (uid c : String) (data : Record)
    (hget : storageGet fs uid = some data)
    (htotp : totp data.secret c 1 = false)
    (hmem : c ∈ data.recovery_codes) :
    (verify totp fs uid c).1 = true ∧
    storageGet (verify totp fs uid c).2 uid =
      some { data with recovery_codes :=
        data.recovery_codes.filter (fun rc => strUpper rc ≠ strUpper c) } ∧
    c ∉ data.recovery_codes.filter (fun rc => strUpper rc ≠ strUpper c) ∧
    (verify totp (verify totp fs uid c).2 uid c).1 = false := by
  have hmem' : strUpper c ∈ data.recovery_codes.map strUpper :=
    List.mem_map_of_mem strUpper hmem
  have hv : verify totp fs uid c =
      (true, storageSave fs uid { data with recovery_codes :=
        (data.recovery_codes.filter (fun rc => strUpper rc ≠ strUpper c)) }) := by
    simp [verify, hget, htotp, verify_recovery_code_of_mem _ _ hmem']
  refine ⟨by simp [hv], ?_, ?_, ?_⟩
  · rw [hv]
    exact storageGet_storageSave_self fs uid _
  · simp [List.mem_filter]
  · rw [hv]
    have hres := verify_false_of_miss totp
      (storageSave fs uid { data with recovery_codes :=
        (data.recovery_codes.filter (fun rc => strUpper rc ≠ strUpper c)) })
      uid c
      { data with recovery_codes :=
        (data.recovery_codes.filter (fun rc => strUpper rc ≠ strUpper c)) }
      (storageGet_storageSave_self fs uid _) htotp
      (strUpper_not_mem_filter _ _)
    rw [hres]

/-- C2 witness: the recovery code `AAAA2222` of user `u1` verifies once
and is consumed; the second attempt fails. -/
theorem C2_witness :
    (verify totpNever exFS "u1" "AAAA2222").1 = true ∧
    storageGet (verify totpNever exFS "u1" "AAAA2222").2 "u1" =
      some { exActive with recovery_codes :=
        (exActive.recovery_codes.filter
          (fun rc => strUpper rc ≠ strUpper "AAAA2222")) } ∧
    "AAAA2222" ∉ exActive.recovery_codes.filter
      (fun rc => strUpper rc ≠ strUpper "AAAA2222") ∧
    (verify totpNever (verify totpNever exFS "u1" "AAAA2222").2
      "u1" "AAAA2222").1 = false :=
  C2_recovery_code_single_use totpNever exFS "u1" "AAAA2222" exActive
    (by decide) rfl (by decide)

/-- C4: `activate` fails with "not configured" when the record is
absent, with "already activated" when `enabled` is already set; with a
pending record it returns success and persists `enabled=true` when the
code matches the stored secret under `valid_window=1`, and returns the
boolean failure result with no state change when it does not. -/
theorem C4_activate_spec (totp : TotpVerify) (fs : FileState)
    (uid code : String) :
    (storageGet fs uid = none →
      activate totp fs uid code =
        (.error ("TOTP not configured for user: " ++ uid), fs)) ∧
    (∀ data : Record, storageGet fs uid = some data → data.enabled = true →
      activate totp fs uid code =
        (.error ("TOTP already activated for user: " ++ uid), fs)) ∧
    (∀ data : Record, storageGet fs uid = some data → data.enabled = false →
      totp data.secret code 1 = true →
      activate totp fs uid code =
        (.ok true, storageSave fs uid { data with enabled := true })) ∧
    (∀ data : Record, storageGet fs uid = some data → data.enabled = false →
      totp data.secret code 1 = false →
      activate totp fs uid code = (.ok false, fs)) := by
  refine ⟨?_, ?_, ?_, ?_⟩
  · intro h
    simp [activate, h]
  · intro data h he
    simp [activate, h, he]
  · intro data h he ht
    simp [activate, h, he, ht]
  · intro data h he ht
    simp [activate, h, he, ht]

/-- C4 witness: the four branches evaluated on concrete states — absent
record, already-active record, pending record with a matching code, and
pending record with a mismatching code. -/
theorem C4_witness :
    activate totpNever (FileState.ok []) "ghost" "000000" =
      (.error ("TOTP not configured for user: " ++ "ghost"),
        FileState.ok []) ∧
    activate totpNever exFS "u1" "000000" =
      (.error ("TOTP already activated for user: " ++ "u1"), exFS) ∧
    activate totpAlways exFS "u2" "123456" =
      (.ok true, storageSave exFS "u2" { exPending with enabled := true }) ∧
    activate totpNever exFS "u2" "000000" = (.ok false, exFS) :=
  ⟨(C4_activate_spec totpNever (FileState.ok []) "ghost" "000000").1 rfl,
   (C4_activate_spec totpNever exFS "u1" "000000").2.1 exActive
     (by decide) rfl,
   (C4_activate_spec totpAlways exFS "u2" "123456").2.2.1 exPending
     (by decide) rfl rfl,
   (C4_activate_spec totpNever exFS "u2" "000000").2.2.2 exPending
     (by decide) rfl rfl⟩

/-- C6: `verify` never changes the `secret`, `enabled` or `created_at`
fields of a stored record, and the resulting `recovery_codes` sequence
is a subsequence of the pre-call one (never larger). -/
theorem C6_verify_frame (totp : TotpVerify) (fs : FileState)
    (uid code : String) (data : Record)
    (hget : storageGet fs uid = some data) :
    ∃ data' : Record,
      storageGet (verify totp fs uid code).2 uid = some data' ∧
      data'.secret = data.secret ∧
      data'.enabled = data.enabled ∧
      data'.created_at = data.created_at ∧
      data'.recovery_codes.Sublist data.recovery_codes := by
  by_cases ht : totp data.secret code 1 = true
  · refine ⟨data, ?_, rfl, rfl, rfl, List.Sublist.refl _⟩
    simp [verify, hget, ht]
  · have ht' : totp data.secret code 1 = false := by
      simpa using ht
    by_cases hm : strUpper code ∈ data.recovery_codes.map strUpper
    · refine ⟨{ data with recovery_codes :=
        (data.recovery_codes.filter
          (fun rc => strUpper rc ≠ strUpper code)) }, ?_, rfl, rfl, rfl,
        List.filter_sublist _⟩
      simp [verify, hget, ht', verify_recovery_code_of_mem _ _ hm,
        storageGet_storageSave_self]
    · refine ⟨data, ?_, rfl, rfl, rfl, List.Sublist.refl _⟩
      simp [verify, hget, ht', verify_recovery_code_of_not_mem _ _ hm]

/-- C6 witness: the frame property evaluated for user `u1` consuming
recovery code `BBBB3333`. -/
theorem C6_witness :
    ∃ data' : Record,
      storageGet (verify totpNever exFS "u1" "BBBB3333").2 "u1" =
        some data' ∧
      data'.secret = exActive.secret ∧
      data'.enabled = exActive.enabled ∧
      data'.created_at = exActive.created_at ∧
      data'.recovery_codes.Sublist exActive.recovery_codes :=
  C6_verify_frame totpNever exFS "u1" "BBBB3333" exActive (by decide)

/-- C5: `setup` fails with "already configured" and leaves storage
unchanged whenever a record for the id exists; when no record exists it
persists a new record with `enabled=false`, the fresh secret and the 8
freshly generated recovery codes, and returns a payload containing that
secret, the provisioning URI and exactly those recovery codes. -/
theorem C5_setup_spec (mkUri : String → String → String → String)
    (qrImage : String → String) (issuer secret : String)
    (pick : Nat → Nat) (now : String) (fs : FileState)
    (uid username : String) :
    (storageExists fs uid = true →
      setup mkUri qrImage issuer secret pick now fs uid username =
        (.error ("TOTP already configured for user: " ++ uid), fs)) ∧
    (storageExists fs uid = false →
      setup mkUri qrImage issuer secret pick now fs uid username =
        (.ok ⟨secret,
          mkUri secret (if username = "" then uid else username) issuer,
          qrImage
            (mkUri secret (if username = "" then uid else username) issuer),
          generate_recovery_codes pick 8 8⟩,
          storageSave fs uid
            ⟨secret, false, generate_recovery_codes pick 8 8, now⟩) ∧
      (generate_recovery_codes pick 8 8).length = 8) := by
  constructor
  · intro h
    simp [setup, h]
  · intro h
    exact ⟨by simp [setup, h], generate_recovery_codes_length pick 8 8⟩

/-- C5 witness: `setup` rejected on the already-enrolled `u1`, and
performed for the fresh `u9` with display name `bob`. -/
theorem C5_witness :
    (setup (fun s a i => s ++ ":" ++ a ++ ":" ++ i) (fun u => u) "MyApp"
        "SECRET1" (fun _ => 0) "t" exFS "u1" "" =
      (.error ("TOTP already configured for user: " ++ "u1"), exFS)) ∧
    ((setup (fun s a i => s ++ ":" ++ a ++ ":" ++ i) (fun u => u) "MyApp"
        "SECRET1" (fun _ => 0) "t" (FileState.ok []) "u9" "bob" =
      (.ok ⟨"SECRET1",
        (fun s a i => s ++ ":" ++ a ++ ":" ++ i) "SECRET1"
          (if ("bob" : String) = "" then "u9" else "bob") "MyApp",
        (fun u => u) ((fun s a i => s ++ ":" ++ a ++ ":" ++ i) "SECRET1"
          (if ("bob" : String) = "" then "u9" else "bob") "MyApp"),
        generate_recovery_codes (fun _ => 0) 8 8⟩,
        storageSave (FileState.ok []) "u9"
          ⟨"SECRET1", false, generate_recovery_codes (fun _ => 0) 8 8,
            "t"⟩)) ∧
      (generate_recovery_codes (fun _ => 0) 8 8).length = 8) :=
  ⟨(C5_setup_spec (fun s a i => s ++ ":" ++ a ++ ":" ++ i) (fun u => u)
      "MyApp" "SECRET1" (fun _ => 0) "t" exFS "u1" "").1 (by decide),
   (C5_setup_spec (fun s a i => s ++ ":" ++ a ++ ":" ++ i) (fun u => u)
      "MyApp" "SECRET1" (fun _ => 0) "t" (FileState.ok []) "u9" "bob").2
     rfl⟩

/-- C8: for every `count` and `length`, `generate_recovery_codes`
returns exactly `count` codes, each of exactly `length` characters, each
character drawn from the alphabet of uppercase letters and digits with
`'0'`, `'O'`, `'I'`, `'1'` excluded; the defaults are `count=8` and
`length=8`. -/
theorem C8_generate_recovery_codes_spec (pick : Nat → Nat)
    (count length : Nat) :
    (generate_recovery_codes pick count length).length = count ∧
    (∀ c ∈ generate_recovery_codes pick count length,
      c.length = length) ∧
    (∀ c ∈ generate_recovery_codes pick count length,
      ∀ ch ∈ c.data, ch ∈ recoveryAlphabet.data) ∧
    ('0' ∉ recoveryAlphabet.data ∧ 'O' ∉ recoveryAlphabet.data ∧
      'I' ∉ recoveryAlphabet.data ∧ '1' ∉ recoveryAlphabet.data) ∧
    (∀ ch ∈ recoveryAlphabet.data,
      ch ∈ (asciiUppercase ++ asciiDigits).data) ∧
    generate_recovery_codes pick = generate_recovery_codes pick 8 8 := by
  refine ⟨generate_recovery_codes_length pick count length,
    fun c hc => generate_recovery_codes_code_length pick count length c hc,
    fun c hc ch hch =>
      generate_recovery_codes_chars pick count length c hc ch hch,
    by decide, ?_, rfl⟩
  decide

/-- C8 witness: with the identity pick stream, two codes of three
characters are produced; the first is `ABC`, whose characters lie in the
restricted alphabet, and `0` is excluded from that alphabet. -/
theorem C8_witness :
    (generate_recovery_codes (fun n => n) 2 3).length = 2 ∧
    String.length "ABC" = 3 ∧
    'A' ∈ recoveryAlphabet.data ∧
    '0' ∉ recoveryAlphabet.data :=
  have h := C8_generate_recovery_codes_spec (fun n => n) 2 3
  ⟨h.1, h.2.1 "ABC" (by decide), h.2.2.1 "ABC" (by decide) 'A' (by decide),
    h.2.2.2.1.1⟩

/-- C10: `verify_recovery_code` compares case-insensitively; on a match
it returns success with every stored code whose uppercase form equals
the uppercased input removed, keeping all other codes and preserving
their relative order; on a mismatch it returns failure with the stored
list unchanged. -/
theorem C10_verify_recovery_code_spec (stored : List String)
    (input : String) :
    (strUpper input ∈ stored.map strUpper →
      verify_recovery_code stored input =
        (true, stored.filter (fun rc => strUpper rc ≠ strUpper input)) ∧
      (∀ rc ∈ stored, strUpper rc = strUpper input →
        rc ∉ (verify_recovery_code stored input).2) ∧
      (∀ rc ∈ stored, strUpper rc ≠ strUpper input →
        rc ∈ (verify_recovery_code stored input).2) ∧
      (verify_recovery_code stored input).2.Sublist stored) ∧
    (strUpper input ∉ stored.map strUpper →
      verify_recovery_code stored input = (false, stored)) := by
  constructor
  · intro h
    have he := verify_recovery_code_of_mem stored input h
    refine ⟨he, ?_, ?_, ?_⟩
    · intro rc hrc hequ
      simp [he, List.mem_filter, hequ]
    · intro rc hrc hneq
      simp [he, List.mem_filter, hrc, hneq]
    · rw [he]
      exact List.filter_sublist _
  · exact verify_recovery_code_of_not_mem stored input

/-- C10 witness: `abcd` consumes both case-variant copies `AbCd` and
`ABCD` while keeping `EFGH` in place; `zzzz` matches nothing and leaves
the list unchanged. -/
theorem C10_witness :
    verify_recovery_code ["AbCd", "EFGH", "ABCD"] "abcd" =
      (true, ["AbCd", "EFGH", "ABCD"].filter
        (fun rc => strUpper rc ≠ strUpper "abcd")) ∧
    "AbCd" ∉ (verify_recovery_code ["AbCd", "EFGH", "ABCD"] "abcd").2 ∧
    "EFGH" ∈ (verify_recovery_code ["AbCd", "EFGH", "ABCD"] "abcd").2 ∧
    (verify_recovery_code ["AbCd", "EFGH", "ABCD"] "abcd").2.Sublist
      ["AbCd", "EFGH", "ABCD"] ∧
    verify_recovery_code ["QQQQ"] "zzzz" = (false, ["QQQQ"]) :=
  have h1 := (C10_verify_recovery_code_spec
    ["AbCd", "EFGH", "ABCD"] "abcd").1 (by decide)
  ⟨h1.1, h1.2.1 "AbCd" (by decide) (by decide),
   h1.2.2.1 "EFGH" (by decide) (by decide),
   h1.2.2.2,
   (C10_verify_recovery_code_spec ["QQQQ"] "zzzz").2 (by decide)⟩

end Auth2FA
